import Mathlib

/-!
Shallow embedding of the external travel-data aggregator in
`travel_planner_simple.py` (hotel search via SerpAPI, airport-code
resolution and real-time flight search via Aerodatabox, and their mock
fallbacks), together with proofs of the specified properties.

Modeling conventions:
* `PyVal` models the Python/JSON values flowing through the code.  Python
  dicts are modeled as association lists in insertion order with unique
  keys (which is what parsing a JSON document produces); `PyVal.none`
  models Python `None` (JSON `null`).
* Code that can raise runs in `PyM` (an `Except String` monad);
  `Except.error` models an uncaught Python exception carrying a message.
  The top-level functions mirror the placement of `try/except` in the
  source, so a value `Except.ok s` means the Python function returns the
  string `s` to its caller.  Exception message texts are descriptive
  stand-ins; no claim depends on the exact text of a Python message.
* The network is an oracle `NetOutcome`: `NetOutcome.ok d` models a 2xx
  response whose body parses to `d`; `NetOutcome.exn e` models any
  failure of `requests.get`, `raise_for_status` or `response.json()`
  (timeout, non-2xx status, malformed body).  A function whose result is
  independent of its oracle argument performs no network call.
* Environment credentials are `Option String` (`Option.none` = unset);
  Python truthiness of the credential is `envTruthy`.
-/

/-- A Python value as it occurs in this program: `None`, booleans, integers,
strings, lists and string-keyed dicts (the values produced by parsing JSON
responses).  Dicts are association lists in insertion order with unique keys. -/
inductive PyVal where
  | none
  | bool (b : Bool)
  | int (n : Int)
  | str (s : String)
  | list (xs : List PyVal)
  | dict (kvs : List (String × PyVal))

/-- Python truthiness (`bool(v)`) for the modeled values. -/
def truthy : PyVal → Bool
  | .none => false
  | .bool b => b
  | .int n => n != 0
  | .str s => !s.data.isEmpty
  | .list xs => !xs.isEmpty
  | .dict kvs => !kvs.isEmpty

/-- Helper for Python dict equality: every key of `xs` occurs in `ys`. -/
def keysSub (xs ys : List (String × PyVal)) : Bool :=
  xs.all (fun kv => (List.lookup kv.1 ys).isSome)

mutual
/-- Python `==` on the modeled values: `None` equals only `None`, booleans
compare with integers numerically (`True == 1`), lists compare pointwise and
dicts compare as key-value mappings (order-insensitive; on the unique-key
association lists used here this is Python dict equality). -/
def pyEq : PyVal → PyVal → Bool
  | .none, .none => true
  | .bool a, .bool b => a == b
  | .bool a, .int n => (if a then (1 : Int) else 0) == n
  | .int n, .bool b => n == (if b then (1 : Int) else 0)
  | .int a, .int b => a == b
  | .str a, .str b => a == b
  | .list xs, .list ys => pyEqList xs ys
  | .dict xs, .dict ys => pyDictSub xs ys && keysSub ys xs
  | _, _ => false
/-- Pointwise Python `==` on lists. -/
def pyEqList : List PyVal → List PyVal → Bool
  | [], [] => true
  | x :: xs, y :: ys => pyEq x y && pyEqList xs ys
  | _, _ => false
/-- Every key of the first dict is mapped, by the second, to a Python-equal
value. -/
def pyDictSub : List (String × PyVal) → List (String × PyVal) → Bool
  | [], _ => true
  | (k, v) :: rest, ys =>
    (match List.lookup k ys with
     | some w => pyEq v w
     | Option.none => false) && pyDictSub rest ys
end

/-- Hexadecimal digit character (lowercase), as used by Python escapes. -/
def hexDigit (n : Nat) : Char :=
  if n < 10 then Char.ofNat (48 + n) else Char.ofNat (87 + n)

/-- Escape one character of a Python string repr, given the chosen quote
character.  ASCII control characters are rendered as backslash-x escapes;
Unicode fine print of CPython repr beyond that is not needed by this code. -/
def escChar (q : Char) (c : Char) : String :=
  if c == '\\' then "\\\\"
  else if c == q then "\\" ++ String.singleton q
  else if c == '\n' then "\\n"
  else if c == '\r' then "\\r"
  else if c == '\t' then "\\t"
  else if c.toNat < 32 || c.toNat == 127 then
    "\\x" ++ String.singleton (hexDigit (c.toNat / 16)) ++ String.singleton (hexDigit (c.toNat % 16))
  else String.singleton c

/-- Python repr of a string: single-quoted, switching to double quotes when
the string contains a single quote but no double quote. -/
def quoteStr (s : String) : String :=
  let hasSq := s.data.any (fun c => c == Char.ofNat 39)
  let hasDq := s.data.any (fun c => c == Char.ofNat 34)
  let q : Char := if hasSq && !hasDq then Char.ofNat 34 else Char.ofNat 39
  String.singleton q ++ String.join (s.data.map (escChar q)) ++ String.singleton q

mutual
/-- Python `repr()` of a modeled value. -/
def pyRepr : PyVal → String
  | .none => "None"
  | .bool true => "True"
  | .bool false => "False"
  | .int n => toString n
  | .str s => quoteStr s
  | .list xs => "[" ++ pyReprList xs ++ "]"
  | .dict kvs => "\x7b" ++ pyReprDict kvs ++ "\x7d"
/-- Comma-separated reprs of list elements. -/
def pyReprList : List PyVal → String
  | [] => ""
  | [x] => pyRepr x
  | x :: rest => pyRepr x ++ ", " ++ pyReprList rest
/-- Comma-separated reprs of dict entries. -/
def pyReprDict : List (String × PyVal) → String
  | [] => ""
  | [(k, v)] => quoteStr k ++ ": " ++ pyRepr v
  | (k, v) :: rest => quoteStr k ++ ": " ++ pyRepr v ++ ", " ++ pyReprDict rest
end

/-- Python `str()` of a modeled value, as used by f-string interpolation:
strings render as themselves, everything else as its repr (which for `None`,
booleans and integers is also its `str()`). -/
def pyStr : PyVal → String
  | .str s => s
  | v => pyRepr v

/-- Four hex digits (lowercase) for a backslash-u escape. -/
def hex4 (n : Nat) : String :=
  String.singleton (hexDigit (n / 4096 % 16)) ++ String.singleton (hexDigit (n / 256 % 16))
    ++ String.singleton (hexDigit (n / 16 % 16)) ++ String.singleton (hexDigit (n % 16))

/-- Backslash-u escape of a code point, with a surrogate pair above 0xFFFF,
as produced by `json.dumps` with its default `ensure_ascii=True`. -/
def jsonUEscape (n : Nat) : String :=
  if n ≤ 65535 then "\\u" ++ hex4 n
  else
    let m := n - 65536
    "\\u" ++ hex4 (55296 + m / 1024) ++ "\\u" ++ hex4 (56320 + m % 1024)

/-- Escape one character of a JSON string per `json.dumps` defaults. -/
def jsonEscChar (c : Char) : String :=
  if c == '"' then "\\\""
  else if c == '\\' then "\\\\"
  else if c == '\n' then "\\n"
  else if c == '\r' then "\\r"
  else if c == '\t' then "\\t"
  else if c.toNat == 8 then "\\b"
  else if c.toNat == 12 then "\\f"
  else if c.toNat < 32 || c.toNat > 126 then jsonUEscape c.toNat
  else String.singleton c

/-- JSON string literal for `s` per `json.dumps` defaults. -/
def jsonQuote (s : String) : String :=
  "\"" ++ String.join (s.data.map jsonEscChar) ++ "\""

/-- Indentation for `json.dumps(..., indent=2)` at nesting level `lvl`. -/
def indentStr (lvl : Nat) : String :=
  String.mk (List.replicate (2 * lvl) ' ')

mutual
/-- Body of `json.dumps(v, indent=2)` at nesting level `lvl`. -/
def dumpsVal : Nat → PyVal → String
  | _, .none => "null"
  | _, .bool true => "true"
  | _, .bool false => "false"
  | _, .int n => toString n
  | _, .str s => jsonQuote s
  | _, .list [] => "[]"
  | lvl, .list (x :: xs) =>
      "[\n" ++ dumpsItems (lvl + 1) (x :: xs) ++ "\n" ++ indentStr lvl ++ "]"
  | _, .dict [] => "\x7b\x7d"
  | lvl, .dict (kv :: kvs) =>
      "\x7b\n" ++ dumpsEntries (lvl + 1) (kv :: kvs) ++ "\n" ++ indentStr lvl ++ "\x7d"
/-- Indented, comma-newline-separated dumps of list items. -/
def dumpsItems : Nat → List PyVal → String
  | _, [] => ""
  | lvl, [x] => indentStr lvl ++ dumpsVal lvl x
  | lvl, x :: rest => indentStr lvl ++ dumpsVal lvl x ++ ",\n" ++ dumpsItems lvl rest
/-- Indented, comma-newline-separated dumps of dict entries. -/
def dumpsEntries : Nat → List (String × PyVal) → String
  | _, [] => ""
  | lvl, [(k, v)] => indentStr lvl ++ jsonQuote k ++ ": " ++ dumpsVal lvl v
  | lvl, (k, v) :: rest =>
      indentStr lvl ++ jsonQuote k ++ ": " ++ dumpsVal lvl v ++ ",\n" ++ dumpsEntries lvl rest
end

/-- Python `json.dumps(v, indent=2)`. -/
def dumps (v : PyVal) : String := dumpsVal 0 v

/-- Substring test on character lists (Python `needle in hay` for strings). -/
def containsSubAux (needle : List Char) : List Char → Bool
  | [] => needle.isEmpty
  | c :: rest => needle.isPrefixOf (c :: rest) || containsSubAux needle rest

/-- Python substring containment `needle in hay`. -/
def containsSub (needle hay : String) : Bool :=
  containsSubAux needle.data hay.data

/-- Python `s.startswith(p)`, used only to state properties of outputs. -/
def startsWithStr (p s : String) : Bool :=
  p.data.isPrefixOf s.data

/-- Python `str.lower()` on the ASCII range (the only range this code
distinguishes: it looks for the ASCII substrings "hotel" and "inn"). -/
def lowerStr (s : String) : String :=
  String.mk (s.data.map Char.toLower)

/-- Outcome of one HTTP request in the embedding: a parsed 2xx JSON body, or
an exception from the request, status check or body parse. -/
inductive NetOutcome where
  | ok (data : PyVal)
  | exn (msg : String)

/-- Monad of Python computations that may raise: `Except.error` is an
uncaught exception. -/
abbrev PyM := Except String

/-- Obtain the parsed response body, raising on network failure: models
`requests.get(...)`, `raise_for_status()` and `response.json()`. -/
def netData : NetOutcome → PyM PyVal
  | .ok d => pure d
  | .exn e => Except.error e

/-- Python `v.get(k, dflt)`: dict lookup with default; raises
`AttributeError` when `v` is not a dict. -/
def pyGet (v : PyVal) (k : String) (dflt : PyVal) : PyM PyVal :=
  match v with
  | .dict kvs => pure ((List.lookup k kvs).getD dflt)
  | _ => Except.error "AttributeError: get"

/-- Python `v.get(k)` (single-argument form, default `None`). -/
def fget (v : PyVal) (k : String) : PyM PyVal :=
  pyGet v k .none

/-- Python `k in v` for the string key `k`: dict key test, list membership
(by Python `==`), substring test on strings; raises `TypeError` otherwise. -/
def pyInStr (k : String) (v : PyVal) : PyM Bool :=
  match v with
  | .dict kvs => pure (kvs.any (fun kv => kv.1 == k))
  | .list xs => pure (xs.any (fun x => pyEq x (.str k)))
  | .str s => pure (containsSub k s)
  | _ => Except.error "TypeError: argument of type is not iterable"

/-- Python `v[k]` for a string key: dict subscription (`KeyError` when the
key is absent); raises `TypeError` on every non-dict. -/
def pySubscript (v : PyVal) (k : String) : PyM PyVal :=
  match v with
  | .dict kvs =>
    match List.lookup k kvs with
    | some w => pure w
    | Option.none => Except.error "KeyError"
  | _ => Except.error "TypeError: indices must be integers"

/-- Python `v[0]`: first list element, first character of a string; `KeyError`
on the string-keyed dicts modeled here; `TypeError` on non-subscriptables. -/
def pyIndex0 : PyVal → PyM PyVal
  | .list (x :: _) => pure x
  | .list [] => Except.error "IndexError: list index out of range"
  | .str s =>
    match s.data with
    | c :: _ => pure (.str (String.singleton c))
    | [] => Except.error "IndexError: string index out of range"
  | .dict _ => Except.error "KeyError: 0"
  | _ => Except.error "TypeError: object is not subscriptable"

/-- Python iteration `for x in v`: list elements, characters of a string (as
one-character strings), keys of a dict; raises `TypeError` otherwise. -/
def pyIterate : PyVal → PyM (List PyVal)
  | .list xs => pure xs
  | .str s => pure (s.data.map (fun c => .str (String.singleton c)))
  | .dict kvs => pure (kvs.map (fun kv => .str kv.1))
  | _ => Except.error "TypeError: object is not iterable"

/-- Python `v[:5]`: list and string slices; raises `TypeError` otherwise. -/
def pySlice5 : PyVal → PyM PyVal
  | .list xs => pure (.list (xs.take 5))
  | .str s => pure (.str (String.mk (s.data.take 5)))
  | _ => Except.error "TypeError: object is not subscriptable"

/-- Python `v.lower()`: lowercase a string; raises `AttributeError` when the
receiver is not a string. -/
def pyLower (v : PyVal) : PyM String :=
  match v with
  | .str s => pure (lowerStr s)
  | _ => Except.error "AttributeError: lower"

/-- Lazy Python `or` over the modeled values: return the first operand when
it is truthy, otherwise evaluate and return the second. -/
def pyOrE (a : PyM PyVal) (b : PyM PyVal) : PyM PyVal := do
  let x ← a
  if truthy x then pure x else b

/-- Truthiness of an environment variable read by `os.getenv`: unset reads
as `None` (falsy) and an empty string is also falsy. -/
def envTruthy : Option String → Bool
  | Option.none => false
  | some s => !s.data.isEmpty

/-- The string an `Except`-modeled function returned to its caller; when an
exception escaped instead (which the proofs rule out for the top-level
functions), the exception message. -/
def runStr (m : PyM String) : String :=
  match m with
  | .ok s => s
  | .error e => e

/-- Source `nested_get` (travel_planner_simple.py lines 119-127): walk the
path; on each segment, a non-dict container or a missing key or a stored
`None` yields `None`.  The source guards every access, so this function is
total: it never raises. -/
def nested_get : PyVal → List String → PyVal
  | d, [] => d
  | d, p :: ps =>
    match d with
    | .dict kvs =>
      match List.lookup p kvs with
      | some v =>
        match v with
        | .none => .none
        | _ => nested_get v ps
      | Option.none => .none
    | _ => .none

/-- Source `get_arrival_iata` (lines 129-134): the first truthy of three
candidate paths, else the value of the last path. -/
def get_arrival_iata (f : PyVal) : PyVal :=
  let a := nested_get f ["arrival", "airport", "iata"]
  if truthy a then a
  else
    let b := nested_get f ["arrival", "iata"]
    if truthy b then b else nested_get f ["arrivalIata"]

/-- Body of the `try` block of `get_iata_code` (lines 82-90) plus the final
`return city_name` at line 91 for the falsy-items path; returns the value
the function would return, raising where the Python raises. -/
def iataTryBody (net : NetOutcome) (city_name : String) : PyM PyVal := do
  let data ← netData net
  let items ← pyGet data "items" (.list [])
  if truthy items then do
    let first ← pyIndex0 items
    let iata ← fget first "iata"
    pure (if truthy iata then iata else .str city_name)
  else
    pure (.str city_name)

/-- Source `get_iata_code` (lines 72-91): unset or empty credential skips
the network and returns the input; any exception in the `try` block falls
through to `return city_name`.  The result is a `PyVal` because the source
returns whatever value sits in the first item field when it is truthy. -/
def get_iata_code (api_key : Option String) (net : NetOutcome) (city_name : String) : PyVal :=
  if envTruthy api_key = false then .str city_name
  else
    match iataTryBody net city_name with
    | .ok v => v
    | .error _ => .str city_name

/-- Source `mock_search_flights` (lines 179-183). -/
def mock_search_flights (origin destination departure_date : String)
    (return_date : Option String) (adults : Nat) : String :=
  "Flights from " ++ origin ++ " to " ++ destination ++ " on " ++ departure_date ++
    (match return_date with
     | some r => if r.data.isEmpty then "" else " returning " ++ r
     | Option.none => "") ++
    " for " ++ toString adults ++ " adults:\n- Airline X: $350\n- Airline Y: $420\n- Airline Z: $390"

/-- The title line and fixed 12-column markdown header of the flight table
(lines 140-142). -/
def flightsHeader (origin_iata dest_iata : PyVal) (departure_date : String) : String :=
  "### Real-time flights from " ++ pyStr origin_iata ++ " to " ++ pyStr dest_iata
    ++ " on " ++ departure_date ++ "\n"
    ++ "| Airline | Flight | Departure | Departure Airport | Arrival | Arrival Airport | Duration | Status | Terminal | Gate | Aircraft | Baggage |\n|---|---|---|---|---|---|---|---|---|---|---|---|\n"

/-- The degraded-data advisory appended when too few key fields resolve
(line 172). -/
def advisoryNote : String :=
  "\n> Note: The flight API response is missing many fields; try updating your RapidAPI key or check the API quota."

/-- One iteration of the rendering loop (lines 144-169): resolve the 12
attributes through their ordered fallback chains, count how many of the 7
key attributes are truthy and not the sentinel, and build the table row.
Returns the row and that count (the loop variable `meaningful`, overwritten
on every iteration). -/
def renderRow (f : PyVal) : PyM (String × Nat) := do
  let airline ← pyOrE (pure (nested_get f ["airline", "name"]))
    (pyOrE (fget f "airlineName")
      (pyOrE (pure (nested_get f ["operatingAirline", "name"])) (pure (.str "N/A"))))
  let flight_num ← pyOrE (fget f "flightNumber")
    (pyOrE (fget f "number")
      (pyOrE (pure (nested_get f ["flight", "number"])) (pure (.str "N/A"))))
  let dep_time ← pyOrE (pure (nested_get f ["scheduledTimeLocal"]))
    (pyOrE (pure (nested_get f ["departure", "scheduledTimeLocal"]))
      (pyOrE (pure (nested_get f ["departure", "actualTimeLocal"])) (pure (.str "N/A"))))
  let dep_airport ← pyOrE (pure (nested_get f ["airport", "name"]))
    (pyOrE (pure (nested_get f ["departure", "airport", "name"]))
      (pyOrE (pure (nested_get f ["departure", "airportName"])) (pure (.str "N/A"))))
  let arr_time ← pyOrE (pure (nested_get f ["arrival", "scheduledTimeLocal"]))
    (pyOrE (pure (nested_get f ["arrival", "actualTimeLocal"])) (pure (.str "N/A")))
  let arr_airport ← pyOrE (pure (nested_get f ["arrival", "airport", "name"]))
    (pyOrE (pure (nested_get f ["arrival", "airportName"])) (pure (.str "N/A")))
  let duration ← pyOrE (fget f "flightDuration")
    (pyOrE (pure (nested_get f ["duration"])) (pure (.str "N/A")))
  let status ← pyOrE (fget f "status")
    (pyOrE (pure (nested_get f ["status", "name"])) (pure (.str "N/A")))
  let terminal ← pyOrE (fget f "terminal")
    (pyOrE (pure (nested_get f ["departure", "terminal"]))
      (pyOrE (pure (nested_get f ["arrival", "terminal"])) (pure (.str "N/A"))))
  let gate ← pyOrE (fget f "gate")
    (pyOrE (pure (nested_get f ["departure", "gate"]))
      (pyOrE (pure (nested_get f ["arrival", "gate"])) (pure (.str "N/A"))))
  let aircraft ← pyOrE (pure (nested_get f ["aircraft", "model"]))
    (pyOrE (fget f "aircraftModel")
      (pyOrE (pure (nested_get f ["aircraft", "type"])) (pure (.str "N/A"))))
  let baggage ← pyOrE (fget f "baggageBelt")
    (pyOrE (pure (nested_get f ["arrival", "baggageBelt"])) (pure (.str "N/A")))
  let keyVals := [airline, flight_num, dep_time, dep_airport, arr_time, arr_airport, aircraft]
  let meaningful := keyVals.countP (fun v => truthy v && !pyEq v (.str "N/A"))
  let row := "| " ++ pyStr airline ++ " | " ++ pyStr flight_num ++ " | " ++ pyStr dep_time
    ++ " | " ++ pyStr dep_airport ++ " | " ++ pyStr arr_time ++ " | " ++ pyStr arr_airport
    ++ " | " ++ pyStr duration ++ " | " ++ pyStr status ++ " | " ++ pyStr terminal
    ++ " | " ++ pyStr gate ++ " | " ++ pyStr aircraft ++ " | " ++ pyStr baggage ++ " |\n"
  pure (row, meaningful)

/-- The rendering loop (lines 143-169): append each row to the accumulated
output and overwrite `meaningful` with the count from the row just
processed; the count returned is the last row's (0 when no row ran). -/
def renderRows : List PyVal → String → Nat → PyM (String × Nat)
  | [], acc, meaningful => pure (acc, meaningful)
  | f :: rest, acc, _ => do
    let rm ← renderRow f
    renderRows rest (acc ++ rm.1) rm.2

/-- Lines 140-174 given the already-filtered record collection: slice to 5,
render the rows, and append the advisory when the last-processed count is
below 3. -/
def renderTable (origin_iata dest_iata : PyVal) (departure_date : String)
    (filtered : PyVal) : PyM String := do
  let sliced ← pySlice5 filtered
  let fs ← pyIterate sliced
  let bm ← renderRows fs "" 0
  let result := flightsHeader origin_iata dest_iata departure_date ++ bm.1
  pure (if bm.2 < 3 then result ++ advisoryNote else result)

/-- Body of the `try` block of `fetch_realtime_flights` (lines 111-174):
fetch, read `departures` (default empty), early-exit on a falsy record
collection, filter by resolved arrival code against the target, fall back to
the first five unfiltered records when the filter is empty, then render. -/
def fetchTryBody (net : NetOutcome) (origin_iata dest_iata : PyVal)
    (departure_date : String) : PyM String := do
  let data ← netData net
  let flights ← pyGet data "departures" (.list [])
  if truthy flights = false then
    pure "No real-time flights found."
  else do
    let elems ← pyIterate flights
    let filtered := elems.filter (fun f => pyEq (get_arrival_iata f) dest_iata)
    let filteredV ← if filtered.isEmpty then pySlice5 flights else pure (.list filtered)
    renderTable origin_iata dest_iata departure_date filteredV

/-- Source `fetch_realtime_flights` (lines 94-176).  The credential is read
once and also governs the two `get_iata_code` calls (which read the same
variable); a falsy credential short-circuits to the mock before any network
oracle is consulted; any exception inside the `try` block is converted to
the annotated mock text.  `Except.ok s` means the Python function returns
`s`; an `Except.error` would model an uncaught exception escaping to the
caller (the proofs show this never happens). -/
def fetch_realtime_flights (api_key : Option String)
    (netOrigin netDest netFlights : NetOutcome)
    (origin destination departure_date : String)
    (return_date : Option String) (adults : Nat) : PyM String :=
  let origin_iata := get_iata_code api_key netOrigin origin
  let dest_iata := get_iata_code api_key netDest destination
  if envTruthy api_key = false then
    Except.ok (mock_search_flights origin destination departure_date return_date adults)
  else
    match fetchTryBody netFlights origin_iata dest_iata departure_date with
    | .ok s => Except.ok s
    | .error e =>
      Except.ok ("[API error: " ++ e ++ "] Falling back to mock data.\n"
        ++ mock_search_flights origin destination departure_date return_date adults)

/-- The dict literal appended for a hotel-like organic result (lines 40-47). -/
def hotelEntry (item : PyVal) : PyM PyVal := do
  let t ← pyGet item "title" (.str "N/A")
  let a ← pyGet item "address" (.str "N/A")
  let r ← pyGet item "rating" (.str "N/A")
  let rv ← pyGet item "reviews" (.str "N/A")
  let p ← pyGet item "price" (.str "N/A")
  let l ← pyGet item "link" (.str "N/A")
  pure (.dict [("title", t), ("address", a), ("rating", r), ("reviews", rv), ("price", p), ("link", l)])

/-- The organic-results scan (lines 36-47): for each item whose title
lowercases to something containing "hotel" or "inn", append the mapped
entry to `hotels` (raising `AttributeError` when `hotels` is not a list, as
`hotels.append` would). -/
def scanOrganic : List PyVal → PyVal → PyM PyVal
  | [], hotels => pure hotels
  | item :: rest, hotels => do
    let title ← pyGet item "title" (.str "")
    let tl ← pyLower title
    if containsSub "hotel" tl || containsSub "inn" tl then
      match hotels with
      | .list hs => do
        let e ← hotelEntry item
        scanOrganic rest (.list (hs ++ [e]))
      | _ => Except.error "AttributeError: append"
    else
      scanOrganic rest hotels

/-- Python slicing `s[:n]` on a string: the first `n` characters (Python
slices strings by code points, which are the entries of `String.data`). -/
def strTake (s : String) (n : Nat) : String :=
  String.mk (s.data.take n)

/-- The no-results return value (lines 49-51): message plus a debug dump of
the raw response truncated to its first 2000 characters. -/
def noHotelsMsg (data : PyVal) : String :=
  "No hotels found for your search."
    ++ "\n\n<details><summary>Debug: Raw SerpAPI response</summary>\n<pre>"
    ++ strTake (dumps data) 2000 ++ "...</pre></details>"

/-- The hotel table title and 6-column markdown header (lines 53-55). -/
def hotelsHeader : String :=
  "### Top Hotels (Google Hotels via SerpAPI)\n| Name | Address | Rating | Reviews | Price | Link |\n|---|---|---|---|---|---|\n"

/-- One iteration of the hotel rendering loop (lines 56-65): pull the six
fields with the sentinel default, wrap a truthy non-sentinel link as a
clickable label, and build the row. -/
def hotelRow (h : PyVal) : PyM String := do
  let name ← pyGet h "title" (.str "N/A")
  let address ← pyGet h "address" (.str "N/A")
  let rating ← pyGet h "rating" (.str "N/A")
  let reviews ← pyGet h "reviews" (.str "N/A")
  let price ← pyGet h "price" (.str "N/A")
  let link0 ← fget h "link"
  let link := if truthy link0 then link0 else .str "N/A"
  let linkCell := if pyEq link (.str "N/A") then pyStr link else "[View](" ++ pyStr link ++ ")"
  pure ("| " ++ pyStr name ++ " | " ++ pyStr address ++ " | " ++ pyStr rating ++ " | "
    ++ pyStr reviews ++ " | " ++ pyStr price ++ " | " ++ linkCell ++ " |\n")

/-- The hotel rendering loop over the sliced entries (lines 56-65). -/
def hotelRows : List PyVal → String → PyM String
  | [], acc => pure acc
  | h :: rest, acc => do
    let row ← hotelRow h
    hotelRows rest (acc ++ row)

/-- Body of the `try` block of `serpapi_search_hotels` after the response is
parsed (lines 26-66): prefer `local_results` (plain list, or the `places`
list inside a dict), otherwise scan `organic_results` for hotel-like titles;
return the no-results message when nothing resolved, else the rendered
table of the first five entries. -/
def hotelsBody (data : PyVal) : PyM String := do
  let hasLocal ← pyInStr "local_results" data
  let hotels1 ←
    if hasLocal then do
      let lr ← pySubscript data "local_results"
      match lr with
      | .list xs => pure (PyVal.list xs)
      | .dict kvs =>
        match List.lookup "places" kvs with
        | some v => pure v
        | Option.none => pure (PyVal.list [])
      | _ => pure (PyVal.list [])
    else pure (PyVal.list [])
  let hotels2 ←
    if truthy hotels1 = false then do
      let hasOrg ← pyInStr "organic_results" data
      if hasOrg then do
        let org ← pySubscript data "organic_results"
        let items ← pyIterate org
        scanOrganic items hotels1
      else pure hotels1
    else pure hotels1
  if truthy hotels2 = false then
    pure (noHotelsMsg data)
  else do
    let sliced ← pySlice5 hotels2
    let hs ← pyIterate sliced
    let body ← hotelRows hs ""
    pure (hotelsHeader ++ body)

/-- Source `serpapi_search_hotels` (lines 10-68), with the request modeled
by the oracle: the whole body sits in one `try`, and any exception (network,
parse, or processing) is converted to the inline error string.  `Except.ok
s` means the Python function returns `s`. -/
def serpapi_search_hotels (net : NetOutcome) : PyM String :=
  match (do let data ← netData net; hotelsBody data : PyM String) with
  | .ok s => Except.ok s
  | .error e => Except.ok ("[SerpAPI error: " ++ e ++ "]")

set_option maxRecDepth 8000

/-! ## Shared helper lemmas and claim-side definitions -/

/-- A value is a Python mapping (dict); the records of the flight payload
and the entries of organic results are mappings per the data model. -/
def isDict : PyVal → Bool
  | .dict _ => true
  | _ => false

/-- Claim-side reading of the nested-path contract, following the spec
wording: the value at the nested path when every segment is present (each
container along the way a mapping holding the segment), absence otherwise. -/
def specPathLookup : PyVal → List String → Option PyVal
  | d, [] => some d
  | .dict kvs, p :: ps =>
    match List.lookup p kvs with
    | some v => specPathLookup v ps
    | Option.none => Option.none
  | _, _ :: _ => Option.none

/-- An if-then-else of successful results is the successful result of the
if-then-else. -/
theorem ite_ok {c : Prop} [Decidable c] {α : Type} (x y : α) :
    (if c then (Except.ok x : PyM α) else Except.ok y) = Except.ok (if c then x else y) := by
  split <;> rfl

/-- C2: for every input value and ordered sequence of path segments,
`nested_get` returns the value at that nested path when every segment is
present, and the absence sentinel `None` when any segment is missing or the
container reached at any point is not a mapping.  Totality of the Lean
function mirrors the source, whose every access is guarded: it never
raises. -/
theorem nested_get_spec (d : PyVal) (path : List String) :
    nested_get d path = (specPathLookup d path).getD PyVal.none := by
  induction path generalizing d with
  | nil => cases d <;> rfl
  | cons p ps ih =>
    cases d with
    | dict kvs =>
      simp only [nested_get, specPathLookup]
      cases h : List.lookup p kvs with
      | none => rfl
      | some v =>
        cases v with
        | none => cases ps <;> rfl
        | bool b => exact ih _
        | int n => exact ih _
        | str s => exact ih _
        | list xs => exact ih _
        | dict kvs2 => exact ih _
    | none => rfl
    | bool b => rfl
    | int n => rfl
    | str s => rfl
    | list xs => rfl

/-! ## C8: the Grand Inn Paris scenario -/

/-- The hotel-search payload of the C8 scenario. -/
def c8payload : PyVal :=
  .dict [("organic_results", .list [.dict [("title", .str "Grand Inn Paris"), ("address", .str "1 Rue X")]])]

/-- C8: for the payload with one organic result titled "Grand Inn Paris" at
address "1 Rue X", `serpapi_search_hotels` returns the markdown table with
exactly one data row carrying that name and address and the sentinel "N/A"
in the rating, reviews, price and link columns. -/
theorem serpapi_grand_inn_single_row :
    serpapi_search_hotels (.ok c8payload) =
      Except.ok ("### Top Hotels (Google Hotels via SerpAPI)\n| Name | Address | Rating | Reviews | Price | Link |\n|---|---|---|---|---|---|\n| Grand Inn Paris | 1 Rue X | N/A | N/A | N/A | N/A |\n") := by
  rfl

/-! ## C4: missing credential short-circuits to the mock -/

/-- C4: whenever the flight-data credential is unset (or empty, which Python
also treats as falsy), `fetch_realtime_flights` returns exactly the mock
text, for every value of all three network oracles - so neither the two
airport-code resolutions nor the flight fetch consults the network - and on
the concrete scenario (origin "NYC", destination "Paris", departure
"2024-06-01", no return date, 1 adult) the result is the literal mock
string. -/
theorem fetch_no_credential_mock (api_key : Option String)
    (hkey : envTruthy api_key = false)
    (netOrigin netDest netFlights : NetOutcome)
    (origin destination departure_date : String)
    (return_date : Option String) (adults : Nat) :
    fetch_realtime_flights api_key netOrigin netDest netFlights
        origin destination departure_date return_date adults
      = Except.ok (mock_search_flights origin destination departure_date return_date adults)
    ∧ fetch_realtime_flights Option.none netOrigin netDest netFlights
        "NYC" "Paris" "2024-06-01" Option.none 1
      = Except.ok "Flights from NYC to Paris on 2024-06-01 for 1 adults:\n- Airline X: $350\n- Airline Y: $420\n- Airline Z: $390" := by
  constructor
  · simp [fetch_realtime_flights, hkey]
  · rfl

/-- Witness for C4 at a concrete unset credential and failing oracles. -/
theorem fetch_no_credential_mock_witness :
    fetch_realtime_flights Option.none (.exn "x") (.exn "y") (.exn "z")
        "A" "B" "2024-01-01" (some "2024-01-05") 2
      = Except.ok (mock_search_flights "A" "B" "2024-01-01" (some "2024-01-05") 2)
    ∧ fetch_realtime_flights Option.none (.exn "x") (.exn "y") (.exn "z")
        "NYC" "Paris" "2024-06-01" Option.none 1
      = Except.ok "Flights from NYC to Paris on 2024-06-01 for 1 adults:\n- Airline X: $350\n- Airline Y: $420\n- Airline Z: $390" :=
  fetch_no_credential_mock Option.none rfl (.exn "x") (.exn "y") (.exn "z")
    "A" "B" "2024-01-01" (some "2024-01-05") 2

/-! ## C10: set credential, successful response, departures missing or empty -/

/-- C10: with the credential set and the provider responding successfully
with a mapping whose "departures" entry is missing or the empty list,
`fetch_realtime_flights` returns exactly the string "No real-time flights
found." - not a table, not the mock, and no exception. -/
theorem fetch_empty_departures (api_key : Option String)
    (hkey : envTruthy api_key = true)
    (netOrigin netDest : NetOutcome) (kvs : List (String × PyVal))
    (hdep : List.lookup "departures" kvs = Option.none
            ∨ List.lookup "departures" kvs = some (.list []))
    (origin destination departure_date : String)
    (return_date : Option String) (adults : Nat) :
    fetch_realtime_flights api_key netOrigin netDest (.ok (.dict kvs))
        origin destination departure_date return_date adults
      = Except.ok "No real-time flights found." := by
  have hbody : fetchTryBody (.ok (.dict kvs))
      (get_iata_code api_key netOrigin origin)
      (get_iata_code api_key netDest destination) departure_date
      = Except.ok "No real-time flights found." := by
    rcases hdep with h | h <;>
      simp [fetchTryBody, netData, pyGet, h, Bind.bind, Except.bind, pure, Except.pure, truthy]
  simp [fetch_realtime_flights, hkey, hbody]

/-- Witness for C10 on a concrete payload with an empty departures list. -/
theorem fetch_empty_departures_witness :
    fetch_realtime_flights (some "k") (.exn "a") (.exn "b")
        (.ok (.dict [("departures", PyVal.list [])]))
        "NYC" "Paris" "2024-06-01" Option.none 1
      = Except.ok "No real-time flights found." :=
  fetch_empty_departures (some "k") rfl (.exn "a") (.exn "b")
    [("departures", PyVal.list [])] (Or.inr rfl) "NYC" "Paris" "2024-06-01" Option.none 1

/-! ## C9: determinism of the flight normalizer -/

/-- C9: the flight normalizer is deterministic: two calls with the same
credential, the same oracle responses (in particular the same payload) and
the same arguments (in particular the same target code) produce
byte-identical rendered output.  The embedded function is pure, so the
rendering depends only on these inputs. -/
theorem fetch_deterministic (k1 k2 : Option String)
    (nO1 nD1 nF1 nO2 nD2 nF2 : NetOutcome)
    (o1 d1 dd1 o2 d2 dd2 : String) (r1 r2 : Option String) (a1 a2 : Nat)
    (hk : k1 = k2) (hO : nO1 = nO2) (hD : nD1 = nD2) (hF : nF1 = nF2)
    (ho : o1 = o2) (hd : d1 = d2) (hdd : dd1 = dd2) (hr : r1 = r2) (ha : a1 = a2) :
    fetch_realtime_flights k1 nO1 nD1 nF1 o1 d1 dd1 r1 a1
      = fetch_realtime_flights k2 nO2 nD2 nF2 o2 d2 dd2 r2 a2 := by
  subst hk
  subst hO
  subst hD
  subst hF
  subst ho
  subst hd
  subst hdd
  subst hr
  subst ha
  rfl

/-- Witness for C9 at one concrete pair of identical calls. -/
theorem fetch_deterministic_witness :
    fetch_realtime_flights (some "k") (.exn "a") (.exn "b") (.ok (.dict []))
        "NYC" "Paris" "2024-06-01" Option.none 1
      = fetch_realtime_flights (some "k") (.exn "a") (.exn "b") (.ok (.dict []))
        "NYC" "Paris" "2024-06-01" Option.none 1 :=
  fetch_deterministic (some "k") (some "k") (.exn "a") (.exn "b") (.ok (.dict []))
    (.exn "a") (.exn "b") (.ok (.dict [])) "NYC" "Paris" "2024-06-01" "NYC" "Paris" "2024-06-01"
    Option.none Option.none 1 1 rfl rfl rfl rfl rfl rfl rfl rfl rfl

/-! ## C7: the airport-code resolver -/

/-- Claim-side reading of the resolver contract, following the spec wording:
the first lookup result's code when the lookup succeeds (a mapping response
whose truthy "items" value is a list with a first element that is a mapping
holding a truthy "iata" value); absent in every other case. -/
def firstResultIata : NetOutcome → Option PyVal
  | .exn _ => Option.none
  | .ok (.dict kvs) =>
    match (List.lookup "items" kvs).getD (.list []) with
    | .list (f :: _) =>
      match f with
      | .dict fk =>
        if truthy ((List.lookup "iata" fk).getD .none)
        then some ((List.lookup "iata" fk).getD .none)
        else Option.none
      | _ => Option.none
    | _ => Option.none
  | .ok _ => Option.none

/-- The try-block of the resolver, with its fall-through to the original
input, computes exactly the claim-side first-result code with the input as
default. -/
theorem get_iata_code_char (net : NetOutcome) (city_name : String) :
    (match iataTryBody net city_name with
     | .ok v => v
     | .error _ => PyVal.str city_name)
      = (firstResultIata net).getD (.str city_name) := by
  cases net with
  | exn e => rfl
  | ok data =>
    cases data with
    | dict kvs =>
      simp only [iataTryBody, netData, Bind.bind, Except.bind, pyGet, Except.pure, pure,
        firstResultIata]
      cases hit : (List.lookup "items" kvs).getD (.list []) with
      | none => rfl
      | bool b => cases b <;> rfl
      | int n =>
        by_cases hn : n = (0 : Int) <;>
          simp [truthy, hn, pyIndex0, Bind.bind, Except.bind, Except.pure, pure]
      | str s =>
        cases s with
        | mk cs =>
          cases cs with
          | nil => rfl
          | cons c rest => rfl
      | list xs =>
        cases xs with
        | nil => rfl
        | cons f rest =>
          cases f with
          | dict fk =>
            by_cases hv : truthy ((List.lookup "iata" fk).getD .none) = true <;>
              simp [hv, pyIndex0, fget, pyGet, Bind.bind, Except.bind, Except.pure, pure] <;>
              simp [truthy]
          | none => rfl
          | bool b => rfl
          | int n => rfl
          | str s => rfl
          | list ys => rfl
      | dict kvs2 =>
        cases kvs2 with
        | nil => rfl
        | cons kv rest => rfl
    | none => rfl
    | bool b => rfl
    | int n => rfl
    | str s => rfl
    | list xs => rfl

/-- C7: the resolver returns the first lookup result's code exactly when the
lookup succeeds with a truthy first-result code (first conjunct, phrased via
the claim-side `firstResultIata`, whose absence case collapses to the input
string unchanged: no credential, lookup exception, empty result list, or
missing or falsy code field); and with no credential set the result ignores
the network oracle entirely, so no network call is performed (second
conjunct). -/
theorem get_iata_code_spec (api_key : Option String) (net : NetOutcome) (city_name : String) :
    (get_iata_code api_key net city_name
      = if envTruthy api_key = true then (firstResultIata net).getD (.str city_name)
        else .str city_name)
    ∧ (envTruthy api_key = false →
        ∀ other : NetOutcome, get_iata_code api_key other city_name = .str city_name) := by
  constructor
  · cases hk : envTruthy api_key
    · simp [get_iata_code, hk]
    · simp only [get_iata_code, hk]
      rw [← get_iata_code_char net city_name]
      simp
  · intro hk other
    simp [get_iata_code, hk]

/-- Witness for C7: with no credential the input passes through unchanged
for a failing oracle; with a credential and a successful lookup the first
result's code is returned. -/
theorem get_iata_code_spec_witness :
    get_iata_code Option.none (.exn "boom") "Delhi" = .str "Delhi"
    ∧ get_iata_code (some "k")
        (.ok (.dict [("items", .list [.dict [("iata", .str "DEL")]])])) "Delhi" = .str "DEL" := by
  constructor
  · exact (get_iata_code_spec Option.none (.exn "boom") "Delhi").2 rfl (.exn "boom")
  · have h := (get_iata_code_spec (some "k")
      (.ok (.dict [("items", .list [.dict [("iata", .str "DEL")]])])) "Delhi").1
    rw [h]
    rfl

/-! ## C6: no exception crosses a component boundary -/

/-- C6: neither function ever lets an exception escape to its caller: for
every oracle outcome and every argument list, both top-level functions
produce `Except.ok` (a returned string), and a failing network call yields
the inline error string for the hotel path and the annotated mock text for
the flight path. -/
theorem no_exception_crosses_boundary (netHotels : NetOutcome) (api_key : Option String)
    (netOrigin netDest netFlights : NetOutcome)
    (origin destination departure_date : String)
    (return_date : Option String) (adults : Nat) :
    (∃ s, serpapi_search_hotels netHotels = Except.ok s)
    ∧ (∃ s, fetch_realtime_flights api_key netOrigin netDest netFlights
          origin destination departure_date return_date adults = Except.ok s)
    ∧ (∀ e, netHotels = .exn e →
        serpapi_search_hotels netHotels = Except.ok ("[SerpAPI error: " ++ e ++ "]"))
    ∧ (∀ e, envTruthy api_key = true → netFlights = .exn e →
        fetch_realtime_flights api_key netOrigin netDest netFlights
            origin destination departure_date return_date adults
          = Except.ok ("[API error: " ++ e ++ "] Falling back to mock data.\n"
              ++ mock_search_flights origin destination departure_date return_date adults)) := by
  refine ⟨?_, ?_, ?_, ?_⟩
  · unfold serpapi_search_hotels
    cases h : (do let data ← netData netHotels; hotelsBody data : PyM String) with
    | ok s => exact ⟨s, rfl⟩
    | error e => exact ⟨"[SerpAPI error: " ++ e ++ "]", rfl⟩
  · unfold fetch_realtime_flights
    by_cases hk : envTruthy api_key = false
    · simp only [hk]
      exact ⟨mock_search_flights origin destination departure_date return_date adults, by simp⟩
    · simp only [hk]
      cases h : fetchTryBody netFlights (get_iata_code api_key netOrigin origin)
          (get_iata_code api_key netDest destination) departure_date with
      | ok s => exact ⟨s, by simp [h]⟩
      | error e =>
        exact ⟨"[API error: " ++ e ++ "] Falling back to mock data.\n"
          ++ mock_search_flights origin destination departure_date return_date adults, by simp [h]⟩
  · intro e he
    subst he
    rfl
  · intro e hk he
    subst he
    simp [fetch_realtime_flights, hk, fetchTryBody, netData, Bind.bind, Except.bind]

/-- Witness for C6: a failing hotel request returns the inline error string;
a failing flight request with the credential set returns the annotated mock
text. -/
theorem no_exception_crosses_boundary_witness :
    serpapi_search_hotels (.exn "timeout") = Except.ok "[SerpAPI error: timeout]"
    ∧ fetch_realtime_flights (some "k") (.exn "x") (.exn "y") (.exn "down")
        "NYC" "Paris" "2024-06-01" Option.none 1
      = Except.ok ("[API error: down] Falling back to mock data.\n"
          ++ mock_search_flights "NYC" "Paris" "2024-06-01" Option.none 1) := by
  have h := no_exception_crosses_boundary (.exn "timeout") (some "k") (.exn "x") (.exn "y")
    (.exn "down") "NYC" "Paris" "2024-06-01" Option.none 1
  exact ⟨h.2.2.1 "timeout" rfl, h.2.2.2 "down" rfl rfl⟩

/-! ## C5: the hotel no-results path -/

/-- Claim-side test from the C5 wording: does this organic entry have a
title containing "hotel" or "inn" (case-insensitive)?  A missing title, a
non-string title or a non-mapping entry contains neither. -/
def titleHotelLike (item : PyVal) : Bool :=
  match item with
  | .dict kvs =>
    match (List.lookup "title" kvs).getD (.str "") with
    | .str t => containsSub "hotel" (lowerStr t) || containsSub "inn" (lowerStr t)
    | _ => false
  | _ => false

/-- Claim-side precondition of C5: a hotel-search payload (a mapping) with
no local-results section and no organic-result entry whose title contains
"hotel" or "inn". -/
def hotelNoResultsPre (data : PyVal) : Bool :=
  match data with
  | .dict kvs =>
    (List.lookup "local_results" kvs).isNone &&
      (match List.lookup "organic_results" kvs with
       | some (.list items) => items.all (fun i => !titleHotelLike i)
       | some _ => true
       | Option.none => true)
  | _ => false

/-- An organic entry the scan processes without raising: a mapping whose
title, when present, is a string (the scan lowercases the title). -/
def organicEntryOk (item : PyVal) : Bool :=
  match item with
  | .dict kvs =>
    match (List.lookup "title" kvs).getD (.str "") with
    | .str _ => true
    | _ => false
  | _ => false

/-- The payload refuting C5 as stated: one organic result whose title is
JSON null.  The scan calls `.lower()` on the stored `None`, which raises,
so the function returns the inline error string, not the no-results
message. -/
def c5cexPayload : PyVal :=
  .dict [("organic_results", .list [.dict [("title", PyVal.none)]])]

/-- C5 counterexample: `c5cexPayload` satisfies the claim-side precondition
(mapping, no local-results section, no organic title containing "hotel" or
"inn"), yet the function returns the SerpAPI error string - the title
lookup yields the stored `None`, whose `.lower()` raises inside the `try` -
and the output does not start with the no-results message. -/
theorem serpapi_no_results_counterexample :
    hotelNoResultsPre c5cexPayload = true
    ∧ serpapi_search_hotels (.ok c5cexPayload)
        = Except.ok "[SerpAPI error: AttributeError: lower]"
    ∧ startsWithStr "No hotels found for your search."
        (runStr (serpapi_search_hotels (.ok c5cexPayload))) = false := by
  exact ⟨rfl, rfl, rfl⟩

/-- A key that does not resolve is matched by no entry. -/
theorem lookup_none_any_false (k : String) (kvs : List (String × PyVal))
    (h : List.lookup k kvs = Option.none) :
    kvs.any (fun kv => kv.1 == k) = false := by
  simp at h
  rw [List.any_eq_false]
  rintro ⟨a, b⟩ hmem
  simp only [beq_iff_eq]
  intro hak
  exact h a b hmem hak.symm

/-- A key that resolves is matched by some entry. -/
theorem lookup_some_any_true (k : String) (kvs : List (String × PyVal)) (v : PyVal)
    (h : List.lookup k kvs = some v) :
    kvs.any (fun kv => kv.1 == k) = true := by
  induction kvs with
  | nil => simp [List.lookup] at h
  | cons kv rest ih =>
    obtain ⟨a, b⟩ := kv
    by_cases hk : k = a
    · simp [List.any_cons, beq_iff_eq, hk]
    · have hba : (k == a) = false := beq_eq_false_iff_ne.mpr hk
      have h2 : List.lookup k rest = some v := by
        simp only [List.lookup, hba] at h
        exact h
      simp [List.any_cons, ih h2]

/-- Scanning organic entries that are well formed and not hotel-like leaves
the accumulator empty and raises nothing. -/
theorem scanOrganic_no_match (items : List PyVal)
    (h : ∀ i ∈ items, organicEntryOk i = true ∧ titleHotelLike i = false) :
    scanOrganic items (.list []) = Except.ok (.list []) := by
  induction items with
  | nil => rfl
  | cons item rest ih =>
    obtain ⟨hok, hnot⟩ := h item (by simp)
    have hrest : scanOrganic rest (.list []) = Except.ok (.list []) :=
      ih (fun i hi => h i (by simp [hi]))
    cases item with
    | dict ikvs =>
      simp only [scanOrganic, pyGet, Bind.bind, Except.bind, Except.pure, pure]
      cases ht : (List.lookup "title" ikvs).getD (.str "") with
      | str t =>
        have hcond : (containsSub "hotel" (lowerStr t) || containsSub "inn" (lowerStr t)) = false := by
          simpa [titleHotelLike, ht] using hnot
        have hc1 : containsSub "hotel" (lowerStr t) = false := by
          cases hx : containsSub "hotel" (lowerStr t)
          · rfl
          · rw [hx] at hcond; simp at hcond
        have hc2 : containsSub "inn" (lowerStr t) = false := by
          cases hx : containsSub "inn" (lowerStr t)
          · rfl
          · rw [hx] at hcond; simp at hcond
        simpa [pyLower, Except.pure, pure, hc1, hc2] using hrest
      | none => simp [organicEntryOk, ht] at hok
      | bool b => simp [organicEntryOk, ht] at hok
      | int n => simp [organicEntryOk, ht] at hok
      | list xs => simp [organicEntryOk, ht] at hok
      | dict kvs2 => simp [organicEntryOk, ht] at hok
    | none => simp [organicEntryOk] at hok
    | bool b => simp [organicEntryOk] at hok
    | int n => simp [organicEntryOk] at hok
    | str s => simp [organicEntryOk] at hok
    | list xs => simp [organicEntryOk] at hok

/-- C5 amended: for every mapping payload with no local-results section
whose organic-results section is absent or is a list of mappings with
string (or absent) titles none of which contains "hotel" or "inn"
(case-insensitive), the function returns the no-results message together
with the debug dump of the raw response truncated to its first 2000
characters - not an exception and not a table.  (The amendment restricts
the claim to payloads the scan can process: a stored non-string title, such
as JSON null, makes the source raise internally and return the inline error
string instead, as the counterexample shows.) -/
theorem serpapi_no_results_amended (kvs : List (String × PyVal))
    (hlocal : List.lookup "local_results" kvs = Option.none)
    (horg : List.lookup "organic_results" kvs = Option.none
            ∨ ∃ items, List.lookup "organic_results" kvs = some (.list items)
                ∧ ∀ i ∈ items, organicEntryOk i = true ∧ titleHotelLike i = false) :
    serpapi_search_hotels (.ok (.dict kvs)) = Except.ok (noHotelsMsg (.dict kvs)) := by
  have hbody : hotelsBody (.dict kvs) = Except.ok (noHotelsMsg (.dict kvs)) := by
    rcases horg with h | ⟨items, hsome, hitems⟩
    · simp [hotelsBody, pyInStr, Bind.bind, Except.bind, Except.pure, pure,
        lookup_none_any_false _ _ hlocal, lookup_none_any_false _ _ h, truthy]
    · simp [hotelsBody, pyInStr, Bind.bind, Except.bind, Except.pure, pure,
        lookup_none_any_false _ _ hlocal, lookup_some_any_true _ _ _ hsome,
        pySubscript, hsome, pyIterate, truthy, scanOrganic_no_match items hitems]
  simp [serpapi_search_hotels, netData, Bind.bind, Except.bind, Except.pure, pure, hbody]

/-- Witness for the amended C5 at the empty mapping payload. -/
theorem serpapi_no_results_amended_witness :
    serpapi_search_hotels (.ok (.dict [])) = Except.ok (noHotelsMsg (.dict [])) :=
  serpapi_no_results_amended [] rfl (Or.inl rfl)

/-! ## Flight rendering machinery for C1 and C3 -/

/-- The arrival filter of line 136: records whose resolved arrival code
Python-equals the target. -/
def arrivalMatches (dest : PyVal) (records : List PyVal) : List PyVal :=
  records.filter (fun f => pyEq (get_arrival_iata f) dest)

/-- Rendering a mapping record never raises: every access in the row loop
is a guarded `nested_get` or a dict `.get`. -/
theorem renderRow_dict_ok (kvs : List (String × PyVal)) :
    ∃ rm, renderRow (.dict kvs) = Except.ok rm := by
  simp only [renderRow, pyOrE, fget, pyGet, Bind.bind, Except.bind, Except.pure, pure, ite_ok]
  exact ⟨_, rfl⟩

/-- The rendering loop never raises on a collection of mapping records. -/
theorem renderRows_dicts_ok (l : List PyVal) (hl : ∀ f ∈ l, isDict f = true)
    (acc : String) (m : Nat) :
    ∃ bm, renderRows l acc m = Except.ok bm := by
  induction l generalizing acc m with
  | nil => exact ⟨(acc, m), rfl⟩
  | cons f rest ih =>
    have hf := hl f (by simp)
    cases f with
    | dict kvs =>
      obtain ⟨rm, hrm⟩ := renderRow_dict_ok kvs
      obtain ⟨bm, hbm⟩ := ih (fun g hg => hl g (by simp [hg])) (acc ++ rm.1) rm.2
      exact ⟨bm, by simp [renderRows, Bind.bind, Except.bind, hrm, hbm]⟩
    | none => simp [isDict] at hf
    | bool b => simp [isDict] at hf
    | int n => simp [isDict] at hf
    | str s => simp [isDict] at hf
    | list xs => simp [isDict] at hf

/-- The count returned by the rendering loop is the count of the last
processed row: the loop variable is overwritten on every iteration. -/
theorem renderRows_last_count (l : List PyVal) (f : PyVal) (body : String) (m : Nat)
    (hlast : l.getLast? = some f) :
    ∀ (acc : String) (m0 : Nat), renderRows l acc m0 = Except.ok (body, m) →
      ∃ r, renderRow f = Except.ok (r, m) := by
  induction l with
  | nil => simp at hlast
  | cons g rest ih =>
    intro acc m0 h
    cases hr : renderRow g with
    | error e =>
      rw [renderRows] at h
      simp [Bind.bind, Except.bind, hr] at h
    | ok rm =>
      obtain ⟨row, cnt⟩ := rm
      cases rest with
      | nil =>
        have hfg : f = g := by simpa using hlast.symm
        subst hfg
        rw [renderRows] at h
        simp only [Bind.bind, Except.bind, hr, renderRows, Except.pure, pure,
          Except.ok.injEq, Prod.mk.injEq] at h
        exact ⟨row, by rw [hr, h.2]⟩
      | cons g2 rest2 =>
        have hlast2 : (g2 :: rest2).getLast? = some f := by
          simpa [List.getLast?_cons_cons] using hlast
        have h2 : renderRows (g2 :: rest2) (acc ++ row) cnt = Except.ok (body, m) := by
          rw [renderRows] at h
          simpa [Bind.bind, Except.bind, hr] using h
        exact ih hlast2 _ _ h2

/-- Rendering a collection of mapping records: the table is the header plus
the accumulated rows, with the advisory appended exactly when the last
row's key-attribute count is below 3. -/
theorem renderTable_dicts (o d : PyVal) (dd : String) (l : List PyVal)
    (hl : ∀ f ∈ l, isDict f = true) :
    ∃ body m, renderRows (l.take 5) "" 0 = Except.ok (body, m)
      ∧ renderTable o d dd (.list l)
          = Except.ok (if m < 3 then (flightsHeader o d dd ++ body) ++ advisoryNote
                       else flightsHeader o d dd ++ body) := by
  obtain ⟨⟨body, m⟩, hbm⟩ :=
    renderRows_dicts_ok (l.take 5) (fun f hf => hl f (List.mem_of_mem_take hf)) "" 0
  refine ⟨body, m, hbm, ?_⟩
  simp [renderTable, pySlice5, pyIterate, Bind.bind, Except.bind, Except.pure, pure, hbm]

/-- Reduction of the flight fetch under a set credential and a successful
mapping response with a non-empty departures list: the output is the
rendered table of the matching records, or of the first five records when
nothing matches, with the catch-all converting a rendering exception. -/
theorem fetch_render_reduction (api_key : Option String) (hkey : envTruthy api_key = true)
    (netOrigin netDest : NetOutcome) (kvs : List (String × PyVal)) (records : List PyVal)
    (hdep : List.lookup "departures" kvs = some (.list records))
    (hne : records ≠ [])
    (origin destination departure_date : String) (return_date : Option String) (adults : Nat) :
    fetch_realtime_flights api_key netOrigin netDest (.ok (.dict kvs))
        origin destination departure_date return_date adults
      = (match renderTable (get_iata_code api_key netOrigin origin)
            (get_iata_code api_key netDest destination) departure_date
            (.list (if (arrivalMatches (get_iata_code api_key netDest destination) records).isEmpty
                    then records.take 5
                    else arrivalMatches (get_iata_code api_key netDest destination) records)) with
         | .ok s => Except.ok s
         | .error e => Except.ok ("[API error: " ++ e ++ "] Falling back to mock data.\n"
             ++ mock_search_flights origin destination departure_date return_date adults)) := by
  have htr : truthy (PyVal.list records) = true := by
    cases records with
    | nil => exact absurd rfl hne
    | cons r rs => rfl
  have hbody : fetchTryBody (.ok (.dict kvs)) (get_iata_code api_key netOrigin origin)
      (get_iata_code api_key netDest destination) departure_date
      = renderTable (get_iata_code api_key netOrigin origin)
          (get_iata_code api_key netDest destination) departure_date
          (.list (if (arrivalMatches (get_iata_code api_key netDest destination) records).isEmpty
                  then records.take 5
                  else arrivalMatches (get_iata_code api_key netDest destination) records)) := by
    simp only [fetchTryBody, netData, pyGet, hdep, Option.getD_some, Bind.bind, Except.bind,
      Except.pure, pure, htr, pyIterate, pySlice5, arrivalMatches]
    by_cases hemp : (List.filter
        (fun f => pyEq (get_arrival_iata f) (get_iata_code api_key netDest destination))
        records).isEmpty = true
    · simp only [hemp, if_true, Bool.true_eq_false, Bool.false_eq_true, if_false]
    · simp only [hemp, Bool.false_eq_true, Bool.true_eq_false, if_false]
  simp only [fetch_realtime_flights, hkey, hbody]
  simp

/-- Every rendered flight table starts with the fixed title prefix, so it is
never the empty result and never the no-flights message. -/
theorem flightsHeader_prefix (o d : PyVal) (dd tail : String) :
    ∃ rest, flightsHeader o d dd ++ tail = "### Real-time flights from " ++ rest := by
  refine ⟨pyStr o ++ (" to " ++ (pyStr d ++ (" on " ++ (dd
    ++ ("\n| Airline | Flight | Departure | Departure Airport | Arrival | Arrival Airport | Duration | Status | Terminal | Gate | Aircraft | Baggage |\n|---|---|---|---|---|---|---|---|---|---|---|---|\n" ++ tail))))), ?_⟩
  simp [flightsHeader, String.append_assoc]

/-- C3: with the credential set and a successful mapping response whose
departures entry is a non-empty list of records (mappings, per the data
model), when no record's resolved arrival code equals the target the
function falls back to rendering the first five unfiltered records - a
table starting with the fixed title, not an empty result - and when one or
more records match, only (the first five of) the matching records are
rendered. -/
theorem fetch_filter_fallback (api_key : Option String) (hkey : envTruthy api_key = true)
    (netOrigin netDest : NetOutcome) (kvs : List (String × PyVal)) (records : List PyVal)
    (hdep : List.lookup "departures" kvs = some (.list records))
    (hne : records ≠ []) (hrec : ∀ f ∈ records, isDict f = true)
    (origin destination departure_date : String) (return_date : Option String) (adults : Nat) :
    (arrivalMatches (get_iata_code api_key netDest destination) records = [] →
      ∃ s, renderTable (get_iata_code api_key netOrigin origin)
              (get_iata_code api_key netDest destination) departure_date
              (.list (records.take 5)) = Except.ok s
        ∧ fetch_realtime_flights api_key netOrigin netDest (.ok (.dict kvs))
              origin destination departure_date return_date adults = Except.ok s
        ∧ ∃ rest, s = "### Real-time flights from " ++ rest)
    ∧ (arrivalMatches (get_iata_code api_key netDest destination) records ≠ [] →
      ∃ s, renderTable (get_iata_code api_key netOrigin origin)
              (get_iata_code api_key netDest destination) departure_date
              (.list (arrivalMatches (get_iata_code api_key netDest destination) records))
            = Except.ok s
        ∧ fetch_realtime_flights api_key netOrigin netDest (.ok (.dict kvs))
              origin destination departure_date return_date adults = Except.ok s
        ∧ ∃ rest, s = "### Real-time flights from " ++ rest) := by
  have hred := fetch_render_reduction api_key hkey netOrigin netDest kvs records hdep hne
    origin destination departure_date return_date adults
  constructor
  · intro hempty
    obtain ⟨body, m, hbm, htab⟩ := renderTable_dicts (get_iata_code api_key netOrigin origin)
      (get_iata_code api_key netDest destination) departure_date (records.take 5)
      (fun f hf => hrec f (List.mem_of_mem_take hf))
    refine ⟨_, htab, ?_, ?_⟩
    · rw [hred, hempty]
      simp [htab]
    · by_cases hm : m < 3
      · rw [if_pos hm, String.append_assoc]
        exact flightsHeader_prefix _ _ _ _
      · rw [if_neg hm]
        exact flightsHeader_prefix _ _ _ _
  · intro hne2
    have hfalse : (arrivalMatches (get_iata_code api_key netDest destination) records).isEmpty
        = false := by
      simpa [List.isEmpty_iff] using hne2
    obtain ⟨body, m, hbm, htab⟩ := renderTable_dicts (get_iata_code api_key netOrigin origin)
      (get_iata_code api_key netDest destination) departure_date
      (arrivalMatches (get_iata_code api_key netDest destination) records)
      (fun f hf => hrec f (List.mem_filter.mp hf).1)
    refine ⟨_, htab, ?_, ?_⟩
    · rw [hred, hfalse]
      simp [htab]
    · by_cases hm : m < 3
      · rw [if_pos hm, String.append_assoc]
        exact flightsHeader_prefix _ _ _ _
      · rw [if_neg hm]
        exact flightsHeader_prefix _ _ _ _

/-- A flight record resolving none of the arrival-code paths. -/
def c3recA : PyVal := .dict [("airlineName", .str "Delta")]

/-- An empty flight record: every attribute resolves to the sentinel. -/
def c3recB : PyVal := .dict []

/-- Payload whose two records match no arrival code. -/
def c3kvsA : List (String × PyVal) := [("departures", .list [c3recA, c3recB])]

/-- A flight record whose resolved arrival code is "CDG". -/
def c3recC : PyVal := .dict [("arrival", .dict [("airport", .dict [("iata", .str "CDG")])])]

/-- Payload with one record matching arrival code "CDG" and one not. -/
def c3kvsB : List (String × PyVal) := [("departures", .list [c3recC, c3recB])]

/-- Witness for C3: a concrete no-match payload falls back to the first
records, and a concrete matching payload renders only the matches. -/
theorem fetch_filter_fallback_witness :
    (∃ s, renderTable (get_iata_code (some "k") (.exn "x") "New York")
            (get_iata_code (some "k") (.exn "y") "Paris") "2024-06-01"
            (.list ([c3recA, c3recB].take 5)) = Except.ok s
      ∧ fetch_realtime_flights (some "k") (.exn "x") (.exn "y") (.ok (.dict c3kvsA))
            "New York" "Paris" "2024-06-01" Option.none 1 = Except.ok s
      ∧ ∃ rest, s = "### Real-time flights from " ++ rest)
    ∧ (∃ s, renderTable (get_iata_code (some "k") (.exn "x") "New York")
            (get_iata_code (some "k") (.exn "y") "CDG") "2024-06-01"
            (.list (arrivalMatches (get_iata_code (some "k") (.exn "y") "CDG") [c3recC, c3recB]))
          = Except.ok s
      ∧ fetch_realtime_flights (some "k") (.exn "x") (.exn "y") (.ok (.dict c3kvsB))
            "New York" "CDG" "2024-06-01" Option.none 1 = Except.ok s
      ∧ ∃ rest, s = "### Real-time flights from " ++ rest) := by
  constructor
  · exact (fetch_filter_fallback (some "k") rfl (.exn "x") (.exn "y") c3kvsA [c3recA, c3recB]
      rfl (by simp)
      (by intro f hf
          simp [c3recA, c3recB] at hf
          rcases hf with h | h
          · subst h; rfl
          · subst h; rfl)
      "New York" "Paris" "2024-06-01" Option.none 1).1 rfl
  · exact (fetch_filter_fallback (some "k") rfl (.exn "x") (.exn "y") c3kvsB [c3recC, c3recB]
      rfl (by simp)
      (by intro f hf
          simp [c3recC, c3recB] at hf
          rcases hf with h | h
          · subst h; rfl
          · subst h; rfl)
      "New York" "CDG" "2024-06-01" Option.none 1).2
      (by rw [show arrivalMatches (get_iata_code (some "k") (.exn "y") "CDG") [c3recC, c3recB]
            = [c3recC] from rfl]
          exact List.cons_ne_nil _ _)

/-- A character list is a prefix of itself. -/
theorem isPrefixOf_self_chars (l : List Char) : l.isPrefixOf l = true := by
  induction l with
  | nil => rfl
  | cons c rest ih => simp [List.isPrefixOf, ih]

/-- A needle occurs in any character list that ends with it. -/
theorem containsSubAux_append_right (n s : List Char) : containsSubAux n (s ++ n) = true := by
  induction s with
  | nil =>
    cases n with
    | nil => rfl
    | cons c rest => simp [containsSubAux, isPrefixOf_self_chars]
  | cons c rest ih => simp [containsSubAux, ih]

/-- Characters of an appended string. -/
theorem strData_append (a b : String) : (a ++ b).data = a.data ++ b.data := rfl

/-- A string that ends with the needle contains it. -/
theorem containsSub_append_right (t s : String) : containsSub t (s ++ t) = true := by
  rw [containsSub, strData_append]
  exact containsSubAux_append_right t.data s.data

/-- Taking up to five elements of a non-empty list is non-empty. -/
theorem take5_ne_nil (l : List PyVal) (h : l ≠ []) : l.take 5 ≠ [] := by
  cases l with
  | nil => exact absurd rfl h
  | cons a as => simp

/-- A non-empty list has a last element. -/
theorem getLast?_exists (l : List PyVal) (h : l ≠ []) : ∃ a, l.getLast? = some a := by
  cases hl : l.getLast? with
  | some a => exact ⟨a, rfl⟩
  | none => exact absurd (List.getLast?_eq_none_iff.mp hl) h

/-- A flight record resolving all seven key attributes, with no resolvable
arrival code. -/
def c1rec1 : PyVal :=
  .dict [("airline", .dict [("name", .str "Air France")]),
         ("flightNumber", .str "AF 123"),
         ("scheduledTimeLocal", .str "2024-06-01 10:00"),
         ("airport", .dict [("name", .str "JFK")]),
         ("arrival", .dict [("scheduledTimeLocal", .str "2024-06-01 18:00"),
                            ("airport", .dict [("name", .str "Charles de Gaulle")])]),
         ("aircraft", .dict [("model", .str "A350")])]

/-- The two-record payload refuting C1 as stated: the first rendered row
resolves all seven key attributes, the last rendered row resolves none. -/
def c1kvs : List (String × PyVal) := [("departures", .list [c1rec1, .dict []])]

/-- The key-attribute count carried by a row-rendering result. -/
def okSnd (m : PyM (String × Nat)) : Nat :=
  match m with
  | .ok rm => rm.2
  | .error _ => 0

/-- C1 counterexample: in the rendered result set for `c1kvs` (two rows,
rendered via the first-5 fallback), the first row resolves all 7 key
attributes, so at least 3 of the 7 resolve across the output rows; the
claim then requires the advisory to be absent, yet the rendered output
contains the degraded-data advisory, because the source computes the
threshold only from the last-processed row (the empty record). -/
theorem flights_advisory_counterexample :
    okSnd (renderRow c1rec1) = 7
    ∧ containsSub advisoryNote (runStr (fetch_realtime_flights (some "k") (.exn "x") (.exn "y")
        (.ok (.dict c1kvs)) "New York" "Paris" "2024-06-01" Option.none 1)) = true := by
  constructor
  · rfl
  · rfl

/-- C1 amended: for a rendered flight result set (credential set, mapping
response, non-empty list of mapping records), the degraded-data advisory is
appended - and hence contained in the output - exactly when the LAST
rendered row resolves fewer than 3 of the 7 key attributes; when that last
row resolves 3 or more, the advisory is not appended (the output is just
the header and the rows).  This is the claim corrected for the source
computing the threshold from the last-processed record only, not across the
output rows. -/
theorem flights_advisory_amended (api_key : Option String) (hkey : envTruthy api_key = true)
    (netOrigin netDest : NetOutcome) (kvs : List (String × PyVal)) (records : List PyVal)
    (hdep : List.lookup "departures" kvs = some (.list records))
    (hne : records ≠ []) (hrec : ∀ f ∈ records, isDict f = true)
    (origin destination departure_date : String) (return_date : Option String) (adults : Nat) :
    ∃ body m flast r,
      renderRows ((if (arrivalMatches (get_iata_code api_key netDest destination) records).isEmpty
                   then records.take 5
                   else arrivalMatches (get_iata_code api_key netDest destination) records).take 5)
          "" 0 = Except.ok (body, m)
      ∧ ((if (arrivalMatches (get_iata_code api_key netDest destination) records).isEmpty
          then records.take 5
          else arrivalMatches (get_iata_code api_key netDest destination) records).take 5).getLast?
          = some flast
      ∧ renderRow flast = Except.ok (r, m)
      ∧ fetch_realtime_flights api_key netOrigin netDest (.ok (.dict kvs))
            origin destination departure_date return_date adults
          = Except.ok (if m < 3 then
                (flightsHeader (get_iata_code api_key netOrigin origin)
                   (get_iata_code api_key netDest destination) departure_date ++ body)
                  ++ advisoryNote
              else flightsHeader (get_iata_code api_key netOrigin origin)
                   (get_iata_code api_key netDest destination) departure_date ++ body)
      ∧ (m < 3 → containsSub advisoryNote
            ((flightsHeader (get_iata_code api_key netOrigin origin)
                (get_iata_code api_key netDest destination) departure_date ++ body)
              ++ advisoryNote) = true) := by
  have hred := fetch_render_reduction api_key hkey netOrigin netDest kvs records hdep hne
    origin destination departure_date return_date adults
  have hShownDicts : ∀ f ∈ (if (arrivalMatches (get_iata_code api_key netDest destination)
      records).isEmpty then records.take 5
      else arrivalMatches (get_iata_code api_key netDest destination) records),
      isDict f = true := by
    intro f hf
    by_cases hp : (arrivalMatches (get_iata_code api_key netDest destination) records).isEmpty = true
    · rw [if_pos hp] at hf
      exact hrec f (List.mem_of_mem_take hf)
    · rw [if_neg hp] at hf
      exact hrec f (List.mem_filter.mp hf).1
  have hShownNe : (if (arrivalMatches (get_iata_code api_key netDest destination)
      records).isEmpty then records.take 5
      else arrivalMatches (get_iata_code api_key netDest destination) records) ≠ [] := by
    by_cases hp : (arrivalMatches (get_iata_code api_key netDest destination) records).isEmpty = true
    · rw [if_pos hp]
      exact take5_ne_nil records hne
    · rw [if_neg hp]
      intro hcontra
      exact hp (by simp [hcontra])
  obtain ⟨body, m, hbm, htab⟩ := renderTable_dicts (get_iata_code api_key netOrigin origin)
    (get_iata_code api_key netDest destination) departure_date _ hShownDicts
  obtain ⟨flast, hlast⟩ := getLast?_exists _ (take5_ne_nil _ hShownNe)
  obtain ⟨r, hr⟩ := renderRows_last_count _ flast body m hlast "" 0 hbm
  refine ⟨body, m, flast, r, hbm, hlast, hr, ?_, ?_⟩
  · rw [hred, htab]
  · intro hm
    exact containsSub_append_right advisoryNote _

/-- Witness for the amended C1 at the two-record payload: the advisory
position is governed by the last rendered row. -/
theorem flights_advisory_amended_witness :
    ∃ body m flast r,
      renderRows ((if (arrivalMatches (get_iata_code (some "k") (.exn "y") "Paris")
                       [c1rec1, PyVal.dict []]).isEmpty
                   then [c1rec1, PyVal.dict []].take 5
                   else arrivalMatches (get_iata_code (some "k") (.exn "y") "Paris")
                        [c1rec1, PyVal.dict []]).take 5) "" 0 = Except.ok (body, m)
      ∧ ((if (arrivalMatches (get_iata_code (some "k") (.exn "y") "Paris")
              [c1rec1, PyVal.dict []]).isEmpty
          then [c1rec1, PyVal.dict []].take 5
          else arrivalMatches (get_iata_code (some "k") (.exn "y") "Paris")
               [c1rec1, PyVal.dict []]).take 5).getLast? = some flast
      ∧ renderRow flast = Except.ok (r, m)
      ∧ fetch_realtime_flights (some "k") (.exn "x") (.exn "y") (.ok (.dict c1kvs))
            "New York" "Paris" "2024-06-01" Option.none 1
          = Except.ok (if m < 3 then
                (flightsHeader (get_iata_code (some "k") (.exn "x") "New York")
                   (get_iata_code (some "k") (.exn "y") "Paris") "2024-06-01" ++ body)
                  ++ advisoryNote
              else flightsHeader (get_iata_code (some "k") (.exn "x") "New York")
                   (get_iata_code (some "k") (.exn "y") "Paris") "2024-06-01" ++ body)
      ∧ (m < 3 → containsSub advisoryNote
            ((flightsHeader (get_iata_code (some "k") (.exn "x") "New York")
                (get_iata_code (some "k") (.exn "y") "Paris") "2024-06-01" ++ body)
              ++ advisoryNote) = true) :=
  flights_advisory_amended (some "k") rfl (.exn "x") (.exn "y") c1kvs [c1rec1, .dict []]
    rfl (by simp)
    (by intro f hf
        simp at hf
        rcases hf with h | h
        · subst h; rfl
        · subst h; rfl)
    "New York" "Paris" "2024-06-01" Option.none 1
